import Mathlib

/-!
Shallow embedding of the miniroll Discord interaction webhook
(`mod.ts`, the live request path): data model, sheet cache, command
handlers and the HTTP entry point `home`, with explicit state passing
for the key-value cache and an effect trace recording every outbound
call and cache write.
-/

/-- Value carried by a slash-command option (string / boolean / number). -/
inductive OptValue where
  | str (s : String)
  | bool (b : Bool)
  | num (n : Int)
deriving DecidableEq

/-- The unchecked `as string` cast the source applies to an option value:
non-string values coerce without any runtime check. -/
def OptValue.asString : OptValue → String
  | .str s => s
  | _ => ""

/-- One entry of `data.options`: `{ name, type, value }`. -/
structure CommandOption where
  name : String
  type : Nat
  value : OptValue
deriving DecidableEq

/-- `options?.find((o) => o.name === n)`: `options` may be absent
(`undefined`), and lookup is exact-name match on the list order. -/
def findOpt (options : Option (List CommandOption)) (n : String) :
    Option CommandOption :=
  match options with
  | none => none
  | some l => l.find? (fun o => o.name == n)

/-- Owner identity embedded in a character sheet. -/
structure Owner where
  id : String
  name : String
  picture : String
deriving DecidableEq

/-- The `Sheet` interface of the source: an externally owned character
record; `stats` maps stat names to resolved numeric values. -/
structure Sheet where
  id : String
  owner : Owner
  publiclyVisible : Bool
  name : String
  species : String
  «class» : String
  level : Int
  stats : List (String × Int)
deriving DecidableEq

/-- A calculation-tree node, tagged by `kind` as in the evaluator's
`EvalResult`: literal number, variable reference with resolved value,
dice-roll term with pre-rendered intermediate text, or binary operation. -/
inductive EvalResult where
  | num (value : Int)
  | ident (value : Int)
  | roll (intermediateText : String)
  | binary (lhs : EvalResult) (op : String) (rhs : EvalResult)
deriving DecidableEq

/-- Result of the external dice evaluator: final value, canonical text of
the expression, and the calculation tree. -/
structure RollResult where
  result : Int
  normalized : String
  calculation : EvalResult
deriving DecidableEq

/-- A JavaScript thrown value: either an `Error` instance carrying a
message, or any other thrown value. -/
inductive JsThrown where
  | error (message : String)
  | nonError
deriving DecidableEq

/-- Combined answer of the spell GraphQL query: `spell` is the exact-id
hit (or `null`), `spells` the fuzzy-name hits, each reduced to its id. -/
structure SpellResponse where
  spell : Option String
  spells : List String
deriving DecidableEq

/-- Outcome of one upstream `fetch`: the request (or body parsing) threw,
the response had a non-success status, or it succeeded with a parsed
payload. -/
inductive FetchResult (α : Type) where
  | threw
  | notOk
  | ok (val : α)
deriving DecidableEq

/-- One observable side effect of a request: an outbound call to the
sheet service, a cache write, an outbound spell query, or the follow-up
PATCH against the platform webhook. -/
inductive Effect where
  | sheetFetch (sid : String)
  | cacheWrite (uid : String)
  | spellFetch (q : String)
  | followUpPatch
deriving DecidableEq

/-- Program state threaded through a request: the `syncedSheet` key-value
store keyed by user id, plus `fetchId`, a history (ghost) field recording,
for each user with a cache entry, the sheet id most recently used to fetch
that entry — updated exactly where `kv.set` runs, never read by the
program — and the accumulated effect trace. -/
structure St where
  cache : String → Option Sheet
  fetchId : String → Option String
  trace : List Effect

/-- Append one effect to the trace. -/
def St.addEffect (st : St) (e : Effect) : St :=
  { st with trace := st.trace ++ [e] }

/-- The external collaborators, as black-box response functions: the
sheet service by sheet id, the spell GraphQL service by search term, and
the `roll` evaluator taking the notation string and the named variables. -/
structure Env where
  sheetService : String → FetchResult Sheet
  spellService : String → FetchResult SpellResponse
  roll : String → List (String × Int) → Except JsThrown RollResult

/-- An image embed of a follow-up message. -/
structure Embed where
  type : String
  imageUrl : String
deriving DecidableEq

/-- A Components-V2 component of a follow-up: a raw text display
(type 10) or a button with its `customId` and style. -/
inductive Component where
  | textDisplay (content : String)
  | button (customId : String) (style : Nat)
deriving DecidableEq

/-- A follow-up payload (`RESTPatchAPIInteractionFollowupJSONBody`):
optional content text, embeds, components. -/
structure FollowUp where
  content : Option String
  embeds : List Embed
  components : List Component
deriving DecidableEq

/-- The uncaught JavaScript exception a handler can raise: reading a
property of `undefined`. -/
inductive JsError where
  | typeError
deriving DecidableEq

/-- Command data of an application-command interaction:
`{ type, name, options }`. -/
structure InteractionData where
  type : Nat
  name : String
  options : Option (List CommandOption)
deriving DecidableEq

/-- An inbound interaction: numeric `type`, one-time `token`, the
invoking user id found under `member.user` or at top level, and the
command data. -/
structure Interaction where
  type : Nat
  token : String
  memberUser : Option String
  user : Option String
  data : InteractionData
deriving DecidableEq

/-- `interaction.member?.user ?? interaction.user`. -/
def userIdOf (i : Interaction) : Option String :=
  match i.memberUser with
  | some u => some u
  | none => i.user

/-- An inbound HTTP request as seen by `home`: the result of sift's
`validateRequest` (a message/status pair when the method or the signature
headers are rejected), signature validity, and the parsed interaction. -/
structure HttpRequest where
  siftError : Option (String × Nat)
  validSignature : Bool
  interaction : Interaction

/-- The synchronous HTTP response of `home`: a JSON error with a status
(`reject`), the ping acknowledgment, or the deferred placeholder
(`type: 4`) with content and message flags. -/
inductive HttpResponse where
  | reject (message : String) (status : Nat)
  | pong
  | ack (content : String) (flags : Nat)
deriving DecidableEq

/-- HTTP status of a response; sift's `json` answers 200 by default. -/
def HttpResponse.status : HttpResponse → Nat
  | .reject _ s => s
  | .pong => 200
  | .ack _ _ => 200

/-- The `response` helper: flags start at 0, add the ephemeral flag
(`MessageFlags.Ephemeral`, 64) then the components flag
(`MessageFlags.IsComponentsV2`, 32768). -/
def response (content : String) (ephemeral : Bool) (components : Bool) :
    HttpResponse :=
  let flags : Nat := 0
  let flags := if ephemeral then flags + 64 else flags
  let flags := if components then flags + 32768 else flags
  .ack content flags

/-- `syncSheetForUser(uid, sid)`: fetch the sheet by `sid`; on a thrown
exception or non-success status return `null` without touching the cache;
on success overwrite this user's cache entry wholesale (recording in the
`fetchId` history that `sid` fetched it) and return the sheet. -/
def syncSheetForUser (env : Env) (uid sid : String) (st : St) :
    Option Sheet × St :=
  let st1 := st.addEffect (.sheetFetch sid)
  match env.sheetService sid with
  | .threw => (none, st1)
  | .notOk => (none, st1)
  | .ok sheet =>
    (some sheet,
      { cache := fun u => if u = uid then some sheet else st1.cache u,
        fetchId := fun u => if u = uid then some sid else st1.fetchId u,
        trace := st1.trace ++ [.cacheWrite uid] })

/-- `getSyncedSheetForUser(uid)`: read the cache entry; absent entry means
`null` with no upstream call, otherwise re-fetch using the entry's stored
id. -/
def getSyncedSheetForUser (env : Env) (uid : String) (st : St) :
    Option Sheet × St :=
  match st.cache uid with
  | none => (none, st)
  | some doc => syncSheetForUser env uid doc.id st

/-- `stringifyCalculation`: recursive rendering of a calculation tree,
switching on the node's `kind` exactly as the source does. -/
def stringifyCalculation : EvalResult → String
  | .num value => toString value
  | .ident value => toString value
  | .roll intermediateText => intermediateText
  | .binary lhs op rhs =>
    stringifyCalculation lhs ++ " " ++ op ++ " " ++ stringifyCalculation rhs

/-- The `err instanceof Error ? ... : ...` ternary of the roll handler's
catch block, rendered as the diagnostic content. -/
def thrownMessage : JsThrown → String
  | .error message => "\n```diff\n- " ++ message ++ "\n```"
  | .nonError => "**_An unexpected error ocurred._**"

/-- The variables handed to the evaluator:
`new Map(Object.entries(sheet?.stats ?? {}))`. -/
def rollData : Option Sheet → List (String × Int)
  | some sheet => sheet.stats
  | none => []

/-- `handleRollCommand`: missing `dice` option gives a diagnostic; a
`dice` option whose type tag is not string (3) gives `null`; otherwise
resolve the synced sheet, run the evaluator on the notation with the
sheet's stats, converting a thrown value into a diagnostic follow-up, and
on success render result, normalized form and calculation trail. -/
def handleRollCommand (env : Env) (options : Option (List CommandOption))
    (uid : String) (st : St) : Option FollowUp × St :=
  match findOpt options "dice" with
  | none => (some ⟨some "No dice notation given.", [], []⟩, st)
  | some dice =>
    if dice.type ≠ 3 then (none, st)
    else
      let fetched := getSyncedSheetForUser env uid st
      match env.roll dice.value.asString (rollData fetched.1) with
      | .error err => (some ⟨some (thrownMessage err), [], []⟩, fetched.2)
      | .ok rollResult =>
        (some ⟨some ("### " ++ toString rollResult.result ++ "\n = `" ++
          rollResult.normalized ++ "` = " ++
          stringifyCalculation rollResult.calculation), [], []⟩, fetched.2)

/-- Body of `handleSyncCommand` after the `id` option-type guard, on the
option's value `sid`: refresh-in-place without `sid`, fetch-and-overwrite
with it; `null` gives the failure text matching whether `sid` was given,
success names the synced character. -/
def syncAfterGuard (env : Env) (uid : String) (sid : Option String)
    (st : St) : Option FollowUp × St :=
  let fetched :=
    match sid with
    | none => getSyncedSheetForUser env uid st
    | some s => syncSheetForUser env uid s st
  match fetched.1 with
  | none =>
    (some ⟨some (match sid with
      | some _ =>
        "**Failed to sync.**\nAre you sure the ID is correct and the sheet is public?"
      | none =>
        "**Failed to sync.**\nMake sure your sheet still exists and is public."), [], []⟩,
      fetched.2)
  | some sheet =>
    (some ⟨some ("Synced character **" ++ sheet.name ++ "**."), [], []⟩,
      fetched.2)

/-- `handleSyncCommand`: an `id` option present with a non-string type
tag gives `null`; otherwise proceed with the optional id value. -/
def handleSyncCommand (env : Env) (options : Option (List CommandOption))
    (uid : String) (st : St) : Option FollowUp × St :=
  match findOpt options "id" with
  | none => syncAfterGuard env uid none st
  | some o =>
    if o.type ≠ 3 then (none, st)
    else syncAfterGuard env uid (some o.value.asString) st

/-- The JavaScript value of
`data.spell ?? (data.spells.length === 0 ? data.spells[0] : null)`:
a found spell object, `undefined` (indexing an empty array), or `null`. -/
inductive SpellSel where
  | found (id : String)
  | jsNull
  | jsUndefined
deriving DecidableEq

/-- Evaluate the nullish-coalescing selection on the query response. -/
def spellSelect (d : SpellResponse) : SpellSel :=
  match d.spell with
  | some s => .found s
  | none => if d.spells.length = 0 then .jsUndefined else .jsNull

/-- `handleSpellCommand`: missing or non-string `name` option gives an
arguments diagnostic; otherwise issue the combined spell query; fetch
failures give text-display components; then branch on the selected spell
value — a defined spell renders the image embed, `undefined` makes the
`spell.id` read throw a TypeError, and `null` falls through to the
not-found text or the disambiguation message with one button per
candidate, each with custom id `btn-<shortToken>-<id>`. -/
def handleSpellCommand (env : Env) (options : Option (List CommandOption))
    (shortToken : String) (st : St) :
    Except JsError (Option FollowUp) × St :=
  match findOpt options "name" with
  | none => (.ok (some ⟨some "Invalid command arguments.", [], []⟩), st)
  | some searchTermOpt =>
    if searchTermOpt.type ≠ 3 then
      (.ok (some ⟨some "Invalid command arguments.", [], []⟩), st)
    else
      let q := searchTermOpt.value.asString
      let st1 := st.addEffect (.spellFetch q)
      match env.spellService q with
      | .notOk =>
        (.ok (some ⟨none, [], [.textDisplay "Failed to fetch spell data."]⟩),
          st1)
      | .threw =>
        (.ok (some ⟨none, [],
          [.textDisplay "Unexpected error fetching spell data."]⟩), st1)
      | .ok d =>
        match spellSelect d with
        | .found s =>
          (.ok (some ⟨none,
            [⟨"image", "https://fivee.co/snippets/spell-card/" ++ s⟩], []⟩),
            st1)
        | .jsUndefined => (.error .typeError, st1)
        | .jsNull =>
          if d.spells.length = 0 then
            (.ok (some ⟨none, [],
              [.textDisplay "Couldn't find a spell with that name or ID."]⟩),
              st1)
          else
            (.ok (some ⟨some "Which spell?", [],
              .textDisplay "**Which spell?**" ::
                d.spells.map (fun spell =>
                  .button ("btn-" ++ shortToken ++ "-" ++ spell) 1)⟩), st1)

/-- `handleCommand`: exact-name dispatch over roll, r, sync, spell; any
other name resolves to `null`. Only the spell handler can throw. -/
def handleCommand (env : Env) (name : String)
    (options : Option (List CommandOption)) (uid shortToken : String)
    (st : St) : Except JsError (Option FollowUp) × St :=
  if name = "roll" ∨ name = "r" then
    let r := handleRollCommand env options uid st
    (.ok r.1, r.2)
  else if name = "sync" then
    let r := handleSyncCommand env options uid st
    (.ok r.1, r.2)
  else if name = "spell" then
    handleSpellCommand env options shortToken st
  else
    (.ok none, st)

/-- `whisperOpt !== undefined && whisperOpt.type !== 5`. -/
def whisperBad (options : Option (List CommandOption)) : Bool :=
  match findOpt options "whisper" with
  | some w => w.type != 5
  | none => false

/-- `whisperOpt?.value === true`. -/
def whisperValue (options : Option (List CommandOption)) : Bool :=
  match findOpt options "whisper" with
  | some w => decide (w.value = .bool true)
  | none => false

/-- The `home` request handler, sequentialized: sift validation, then
signature check, then ping; for a command, resolve the user and check the
command subtype, then start the detached `handleCommand` continuation
(its effects, and the follow-up PATCH when it resolves rather than
throws, land in the trace), and only then validate the whisper option and
return the deferred placeholder with its flags. -/
def home (env : Env) (req : HttpRequest) (st : St) : HttpResponse × St :=
  match req.siftError with
  | some e => (.reject e.1 e.2, st)
  | none =>
    if !req.validSignature then (.reject "Invalid request" 401, st)
    else
      let i := req.interaction
      let shortToken := i.token.take 8
      if i.type = 1 then (.pong, st)
      else if i.type = 2 then
        match userIdOf i with
        | none => (.reject "Command not issued by user." 400, st)
        | some uid =>
          if i.data.type ≠ 1 then
            (.reject "Interaction is not from a slash command." 400, st)
          else
            let handled :=
              handleCommand env i.data.name i.data.options uid shortToken st
            let st1 :=
              match handled.1 with
              | .ok _ => handled.2.addEffect .followUpPatch
              | .error _ => handled.2
            if whisperBad i.data.options then
              (.reject "Invalid options" 400, st1)
            else
              let whisper := whisperValue i.data.options
              let ephemeral := whisper || (i.data.name == "sync")
              let comps := i.data.name == "spell"
              (response "-# _Working on it..._" ephemeral comps, st1)
      else (.reject "Bad request" 400, st)

/-- The initial state: empty cache, empty fetch history, empty trace. -/
def emptySt : St := ⟨fun _ => none, fun _ => none, []⟩

/-- An environment whose three collaborators give constant answers;
used to instantiate theorems at concrete inputs. -/
def constEnv (r : FetchResult Sheet) (sp : FetchResult SpellResponse)
    (rl : Except JsThrown RollResult) : Env :=
  ⟨fun _ => r, fun _ => sp, fun _ _ => rl⟩

/-- Reference rendering following the spec's words (§4.5): literal ⇒ its
decimal text; variable reference ⇒ its resolved value's text; dice-roll
term ⇒ its pre-rendered intermediate text unchanged; binary node ⇒
render(lhs) + " " + operator + " " + render(rhs), recursing on both
children. -/
def stringifyCalculationSpec : EvalResult → String
  | .num value => toString value
  | .ident value => toString value
  | .roll intermediateText => intermediateText
  | .binary lhs op rhs =>
    stringifyCalculationSpec lhs ++ " " ++ op ++ " " ++
      stringifyCalculationSpec rhs

/-- The cache/id invariant: every user's cache entry stores as its `id`
field exactly the sheet id most recently used to fetch that entry (the
`fetchId` history). -/
def cacheIdInvariant (st : St) : Prop :=
  ∀ uid s, st.cache uid = some s → st.fetchId uid = some s.id

/-- The sheet service is addressed by id: a successful fetch for `sid`
returns a sheet whose `id` field is `sid`. The service's internal
behavior is out of scope; this is the interface assumption under which
the cache invariant is stated. -/
def upstreamGood (env : Env) : Prop :=
  ∀ sid s, env.sheetService sid = .ok s → s.id = sid


/-- Flags of a deferred-ack response (0 for the other responses). -/
def HttpResponse.ackFlags : HttpResponse → Nat
  | .ack _ flags => flags
  | _ => 0

/-- The response carries an HTTP 4xx status. -/
def is4xx (r : HttpResponse) : Prop := 400 ≤ r.status ∧ r.status < 500

instance (r : HttpResponse) : Decidable (is4xx r) :=
  inferInstanceAs (Decidable (400 ≤ r.status ∧ r.status < 500))

/-- Claim C7: stringifyCalculation equals the reference recursive
definition for every calculation tree — literals and variable references
render as their value's decimal text, a dice-roll term as its
pre-rendered intermediate text unchanged, and a binary node as
render(lhs) + " " + operator + " " + render(rhs); as a pure function,
rendering the same tree twice yields byte-identical text. -/
theorem C7_stringify_matches_reference (c : EvalResult) :
    stringifyCalculation c = stringifyCalculationSpec c := by
  induction c with
  | num value => rfl
  | ident value => rfl
  | roll intermediateText => rfl
  | binary lhs op rhs ihl ihr =>
    simp [stringifyCalculation, stringifyCalculationSpec, ihl, ihr]

/-- Claim C10: a `dice` option present with a non-string type tag makes
handleRollCommand return `null` — no follow-up and no state change — not
the missing-option diagnostic nor any error message. -/
theorem C10_bad_dice_type_yields_null (env : Env)
    (options : Option (List CommandOption)) (uid : String) (st : St)
    (d : CommandOption) (h1 : findOpt options "dice" = some d)
    (h2 : d.type ≠ 3) :
    handleRollCommand env options uid st = (none, st) := by
  simp [handleRollCommand, h1, h2]

/-- Witness for C10 at a concrete input: a `dice` option with type tag 4. -/
theorem C10_bad_dice_type_yields_null_witness :
    handleRollCommand
      (constEnv .notOk (.ok ⟨none, []⟩) (.error .nonError))
      (some [⟨"dice", 4, .num 5⟩]) "u" emptySt = (none, emptySt) :=
  C10_bad_dice_type_yields_null _ _ _ _ ⟨"dice", 4, .num 5⟩
    (by decide) (by decide)

/-- Claim C6: every value thrown by the external roll evaluator inside
handleRollCommand is caught and converted into a diagnostic follow-up —
the error's message for Error instances, a generic text otherwise — and
the dispatched command resolves normally (`Except.ok`), never escaping as
a protocol-level error. -/
theorem C6_roll_eval_error_caught (env : Env)
    (options : Option (List CommandOption)) (uid shortToken : String)
    (st : St) (d : CommandOption) (e : JsThrown)
    (h1 : findOpt options "dice" = some d) (h2 : d.type = 3)
    (h3 : env.roll d.value.asString
      (rollData (getSyncedSheetForUser env uid st).1) = .error e) :
    handleRollCommand env options uid st =
      (some ⟨some (thrownMessage e), [], []⟩,
        (getSyncedSheetForUser env uid st).2) ∧
    (handleCommand env "roll" options uid shortToken st).1 =
      .ok (some ⟨some (thrownMessage e), [], []⟩) := by
  refine ⟨?_, ?_⟩ <;> simp [handleCommand, handleRollCommand, h1, h2, h3]

/-- Witness for C6 at a concrete input: the evaluator throws an Error
with message "bad"; the follow-up carries the diff-formatted message. -/
theorem C6_roll_eval_error_caught_witness :
    handleRollCommand
      (constEnv .notOk (.ok ⟨none, []⟩) (.error (.error "bad")))
      (some [⟨"dice", 3, .str "1d6"⟩]) "u" emptySt =
      (some ⟨some (thrownMessage (.error "bad")), [], []⟩,
        (getSyncedSheetForUser
          (constEnv .notOk (.ok ⟨none, []⟩) (.error (.error "bad")))
          "u" emptySt).2) ∧
    (handleCommand (constEnv .notOk (.ok ⟨none, []⟩) (.error (.error "bad")))
      "roll" (some [⟨"dice", 3, .str "1d6"⟩]) "u" "tok" emptySt).1 =
      .ok (some ⟨some (thrownMessage (.error "bad")), [], []⟩) :=
  C6_roll_eval_error_caught _ _ _ "tok" _ ⟨"dice", 3, .str "1d6"⟩
    (.error "bad") (by decide) rfl rfl

/-- Claim C4: sync without an `id` option for a user with no cache entry
returns the failure follow-up whose text contains "Make sure your sheet
still exists and is public.", performs no upstream call and leaves the
state — cache, fetch history and effect trace — unchanged. -/
theorem C4_sync_no_id_no_cache (env : Env)
    (options : Option (List CommandOption)) (uid : String) (st : St)
    (h1 : findOpt options "id" = none) (h2 : st.cache uid = none) :
    handleSyncCommand env options uid st =
      (some ⟨some
        "**Failed to sync.**\nMake sure your sheet still exists and is public.",
        [], []⟩, st) ∧
    ∃ pre,
      ("**Failed to sync.**\nMake sure your sheet still exists and is public."
        : String) =
        pre ++ "Make sure your sheet still exists and is public." := by
  refine ⟨?_, "**Failed to sync.**\n", by decide⟩
  simp [handleSyncCommand, h1, syncAfterGuard, getSyncedSheetForUser, h2]

/-- Witness for C4 at a concrete input: no options at all and the empty
initial state. -/
theorem C4_sync_no_id_no_cache_witness :
    handleSyncCommand (constEnv .notOk (.ok ⟨none, []⟩) (.error .nonError))
      none "u" emptySt =
      (some ⟨some
        "**Failed to sync.**\nMake sure your sheet still exists and is public.",
        [], []⟩, emptySt) ∧
    ∃ pre,
      ("**Failed to sync.**\nMake sure your sheet still exists and is public."
        : String) =
        pre ++ "Make sure your sheet still exists and is public." :=
  C4_sync_no_id_no_cache _ none "u" emptySt rfl rfl

/-- Claim C5: when the sheet fetch throws or returns a non-success
status, syncSheetForUser returns `null` and mutates neither the cache nor
the fetch history (the attempted call is still recorded in the trace). -/
theorem C5_sync_failure_atomic (env : Env) (uid sid : String) (st : St)
    (h : env.sheetService sid = .threw ∨ env.sheetService sid = .notOk) :
    (syncSheetForUser env uid sid st).1 = none ∧
    (syncSheetForUser env uid sid st).2.cache = st.cache ∧
    (syncSheetForUser env uid sid st).2.fetchId = st.fetchId := by
  rcases h with h | h <;> simp [syncSheetForUser, St.addEffect, h]

/-- Witness for C5 at a concrete input: a sheet service that always
answers with a non-success status. -/
theorem C5_sync_failure_atomic_witness :
    (syncSheetForUser (constEnv .notOk (.ok ⟨none, []⟩) (.error .nonError))
      "u" "s1" emptySt).1 = none ∧
    (syncSheetForUser (constEnv .notOk (.ok ⟨none, []⟩) (.error .nonError))
      "u" "s1" emptySt).2.cache = emptySt.cache ∧
    (syncSheetForUser (constEnv .notOk (.ok ⟨none, []⟩) (.error .nonError))
      "u" "s1" emptySt).2.fetchId = emptySt.fetchId :=
  C5_sync_failure_atomic _ "u" "s1" emptySt (Or.inr rfl)

/-- Claim C8: handleCommand dispatches by exact name match — name "r"
behaves identically to "roll" on every environment, options list, user
and state, and any name outside roll/r/sync/spell resolves to `ok null`
(no follow-up, no state change), which is distinct from an error
message. -/
theorem C8_dispatch_exact_match (env : Env)
    (options : Option (List CommandOption)) (uid shortToken : String)
    (st : St) (name : String)
    (h : name ≠ "roll" ∧ name ≠ "r" ∧ name ≠ "sync" ∧ name ≠ "spell") :
    handleCommand env "r" options uid shortToken st =
      handleCommand env "roll" options uid shortToken st ∧
    handleCommand env name options uid shortToken st = (.ok none, st) := by
  obtain ⟨h1, h2, h3, h4⟩ := h
  exact ⟨by simp [handleCommand], by simp [handleCommand, h1, h2, h3, h4]⟩

/-- Witness for C8 at a concrete input: the unknown name "foo". -/
theorem C8_dispatch_exact_match_witness :
    handleCommand (constEnv .notOk (.ok ⟨none, []⟩) (.error .nonError))
      "r" none "u" "tok" emptySt =
      handleCommand (constEnv .notOk (.ok ⟨none, []⟩) (.error .nonError))
        "roll" none "u" "tok" emptySt ∧
    handleCommand (constEnv .notOk (.ok ⟨none, []⟩) (.error .nonError))
      "foo" none "u" "tok" emptySt = (.ok none, emptySt) :=
  C8_dispatch_exact_match _ none "u" "tok" emptySt "foo"
    ⟨by decide, by decide, by decide, by decide⟩

/-- Claim C1 (code bug): the spell handler's selection
`data.spell ?? (data.spells.length === 0 ? data.spells[0] : null)`
diverges from the stated priority policy. With exactly one fuzzy hit
(spell: null, spells: ["a"]) the handler emits the disambiguation
message with one selector instead of auto-rendering the image embed;
with zero fuzzy hits (spell: null, spells: []) the selected value is
`undefined`, it passes the `!== null` test and the `spell.id` read
throws a TypeError instead of producing the not-found message. -/
theorem C1_spell_resolution_divergence :
    (handleSpellCommand
      (constEnv .notOk (.ok ⟨none, ["a"]⟩) (.error .nonError))
      (some [⟨"name", 3, .str "mage hand"⟩]) "tok12345" emptySt).1 =
      .ok (some ⟨some "Which spell?", [],
        [.textDisplay "**Which spell?**", .button "btn-tok12345-a" 1]⟩) ∧
    (handleSpellCommand
      (constEnv .notOk (.ok ⟨none, []⟩) (.error .nonError))
      (some [⟨"name", 3, .str "mage hand"⟩]) "tok12345" emptySt).1 =
      .error .typeError := by
  exact ⟨rfl, rfl⟩

theorem syncSheetForUser_invariant (env : Env) (uid sid : String) (st : St)
    (hg : upstreamGood env) (hinv : cacheIdInvariant st) :
    cacheIdInvariant (syncSheetForUser env uid sid st).2 := by
  intro u s
  unfold syncSheetForUser
  cases hsvc : env.sheetService sid with
  | threw => exact hinv u s
  | notOk => exact hinv u s
  | ok sheet =>
    dsimp only
    by_cases h : u = uid
    · simp only [if_pos h]
      intro hu
      injection hu with hu
      rw [← hu, hg sid sheet hsvc]
    · simp only [if_neg h]
      exact hinv u s

theorem getSyncedSheetForUser_invariant (env : Env) (uid : String)
    (st : St) (hg : upstreamGood env) (hinv : cacheIdInvariant st) :
    cacheIdInvariant (getSyncedSheetForUser env uid st).2 := by
  unfold getSyncedSheetForUser
  cases hc : st.cache uid with
  | none => exact hinv
  | some doc => exact syncSheetForUser_invariant env uid doc.id st hg hinv

theorem handleRollCommand_invariant (env : Env)
    (options : Option (List CommandOption)) (uid : String) (st : St)
    (hg : upstreamGood env) (hinv : cacheIdInvariant st) :
    cacheIdInvariant (handleRollCommand env options uid st).2 := by
  unfold handleRollCommand
  cases findOpt options "dice" with
  | none => exact hinv
  | some dice =>
    by_cases ht : dice.type ≠ 3
    · simp only [if_pos ht]
      exact hinv
    · simp only [if_neg ht]
      cases env.roll dice.value.asString
          (rollData (getSyncedSheetForUser env uid st).1) with
      | error e => exact getSyncedSheetForUser_invariant env uid st hg hinv
      | ok r => exact getSyncedSheetForUser_invariant env uid st hg hinv

theorem syncAfterGuard_invariant (env : Env) (uid : String)
    (sid : Option String) (st : St) (hg : upstreamGood env)
    (hinv : cacheIdInvariant st) :
    cacheIdInvariant (syncAfterGuard env uid sid st).2 := by
  unfold syncAfterGuard
  cases sid with
  | none =>
    dsimp only
    cases hr : (getSyncedSheetForUser env uid st).1 with
    | none => exact getSyncedSheetForUser_invariant env uid st hg hinv
    | some sheet => exact getSyncedSheetForUser_invariant env uid st hg hinv
  | some s =>
    dsimp only
    cases hr : (syncSheetForUser env uid s st).1 with
    | none => exact syncSheetForUser_invariant env uid s st hg hinv
    | some sheet => exact syncSheetForUser_invariant env uid s st hg hinv

theorem handleSyncCommand_invariant (env : Env)
    (options : Option (List CommandOption)) (uid : String) (st : St)
    (hg : upstreamGood env) (hinv : cacheIdInvariant st) :
    cacheIdInvariant (handleSyncCommand env options uid st).2 := by
  unfold handleSyncCommand
  cases findOpt options "id" with
  | none => exact syncAfterGuard_invariant env uid none st hg hinv
  | some o =>
    by_cases ht : o.type ≠ 3
    · simp only [if_pos ht]
      exact hinv
    · simp only [if_neg ht]
      exact syncAfterGuard_invariant env uid (some o.value.asString) st hg hinv

theorem handleSpellCommand_invariant (env : Env)
    (options : Option (List CommandOption)) (shortToken : String) (st : St)
    (hinv : cacheIdInvariant st) :
    cacheIdInvariant (handleSpellCommand env options shortToken st).2 := by
  unfold handleSpellCommand
  cases findOpt options "name" with
  | none => exact hinv
  | some searchTermOpt =>
    by_cases ht : searchTermOpt.type ≠ 3
    · simp only [if_pos ht]
      exact hinv
    · simp only [if_neg ht]
      cases env.spellService searchTermOpt.value.asString with
      | threw => exact hinv
      | notOk => exact hinv
      | ok d =>
        dsimp only
        cases spellSelect d with
        | found s => exact hinv
        | jsUndefined => exact hinv
        | jsNull =>
          dsimp only
          by_cases hl : d.spells.length = 0
          · simp only [if_pos hl]
            exact hinv
          · simp only [if_neg hl]
            exact hinv

theorem handleCommand_invariant (env : Env) (name : String)
    (options : Option (List CommandOption)) (uid shortToken : String)
    (st : St) (hg : upstreamGood env) (hinv : cacheIdInvariant st) :
    cacheIdInvariant (handleCommand env name options uid shortToken st).2 := by
  unfold handleCommand
  by_cases h1 : name = "roll" ∨ name = "r"
  · simp only [if_pos h1]
    exact handleRollCommand_invariant env options uid st hg hinv
  · simp only [if_neg h1]
    by_cases h2 : name = "sync"
    · simp only [if_pos h2]
      exact handleSyncCommand_invariant env options uid st hg hinv
    · simp only [if_neg h2]
      by_cases h3 : name = "spell"
      · simp only [if_pos h3]
        exact handleSpellCommand_invariant env options shortToken st hinv
      · simp only [if_neg h3]
        exact hinv

/-- Claim C3: processing any request — in particular any completed sync
or roll — preserves the invariant that every user's cache entry stores
as its `id` field the sheet id most recently used to fetch that entry,
given that the sheet service is addressed by id. -/
theorem C3_cache_id_invariant_preserved (env : Env) (req : HttpRequest)
    (st : St) (hg : upstreamGood env) (hinv : cacheIdInvariant st) :
    cacheIdInvariant (home env req st).2 := by
  unfold home
  cases req.siftError with
  | some e => exact hinv
  | none =>
    by_cases hs : !req.validSignature
    · simp only [if_pos hs]
      exact hinv
    · simp only [if_neg hs]
      by_cases h1 : req.interaction.type = 1
      · simp only [if_pos h1]
        exact hinv
      · simp only [if_neg h1]
        by_cases h2 : req.interaction.type = 2
        · simp only [if_pos h2]
          cases userIdOf req.interaction with
          | none => exact hinv
          | some uid =>
            by_cases h3 : req.interaction.data.type ≠ 1
            · simp only [if_pos h3]
              exact hinv
            · simp only [if_neg h3]
              have hcmd := handleCommand_invariant env
                req.interaction.data.name req.interaction.data.options uid
                (req.interaction.token.take 8) st hg hinv
              cases hres : (handleCommand env req.interaction.data.name
                  req.interaction.data.options uid
                  (req.interaction.token.take 8) st).1 with
              | ok v =>
                by_cases h4 : whisperBad req.interaction.data.options
                · simp only [if_pos h4]
                  exact hcmd
                · simp only [if_neg h4]
                  exact hcmd
              | error e =>
                by_cases h4 : whisperBad req.interaction.data.options
                · simp only [if_pos h4]
                  exact hcmd
                · simp only [if_neg h4]
                  exact hcmd
        · simp only [if_neg h2]
          exact hinv

/-- Witness for C3 at a concrete input: a sync request against an
environment whose sheet service always answers with a non-success
status, starting from the empty state. -/
theorem C3_cache_id_invariant_preserved_witness :
    cacheIdInvariant
      (home (constEnv .notOk (.ok ⟨none, []⟩) (.error .nonError))
        ⟨none, true, ⟨2, "token1234abc", some "u", none, ⟨1, "sync", none⟩⟩⟩
        emptySt).2 :=
  C3_cache_id_invariant_preserved _ _ emptySt
    (fun _ _ h => nomatch h) (fun _ _ h => nomatch h)

/-- Claim C9: for every valid command interaction, the deferred
placeholder's ephemeral flag (bit 6) is set if and only if the whisper
option's value is `true` or the command is "sync", and its Components-V2
flag (bit 15) is set if and only if the command is "spell". -/
theorem C9_ack_flags (env : Env) (req : HttpRequest) (st : St)
    (uid : String) (h1 : req.siftError = none)
    (h2 : req.validSignature = true) (h3 : req.interaction.type = 2)
    (h4 : userIdOf req.interaction = some uid)
    (h5 : req.interaction.data.type = 1)
    (h6 : whisperBad req.interaction.data.options = false) :
    (home env req st).1 =
      response "-# _Working on it..._"
        (whisperValue req.interaction.data.options ||
          (req.interaction.data.name == "sync"))
        (req.interaction.data.name == "spell") ∧
    (home env req st).1.ackFlags.testBit 6 =
      (whisperValue req.interaction.data.options ||
        (req.interaction.data.name == "sync")) ∧
    (home env req st).1.ackFlags.testBit 15 =
      (req.interaction.data.name == "spell") := by
  have hm : (home env req st).1 =
      response "-# _Working on it..._"
        (whisperValue req.interaction.data.options ||
          (req.interaction.data.name == "sync"))
        (req.interaction.data.name == "spell") := by
    simp [home, h1, h2, h3, h4, h5, h6]
  refine ⟨hm, ?_, ?_⟩ <;> rw [hm] <;>
    cases whisperValue req.interaction.data.options ||
      (req.interaction.data.name == "sync") <;>
    cases req.interaction.data.name == "spell" <;>
    decide

/-- Witness for C9 at a concrete input: a sync command with no options —
the placeholder is ephemeral (bit 6) and has no Components-V2 flag. -/
theorem C9_ack_flags_witness :
    (home (constEnv .notOk (.ok ⟨none, []⟩) (.error .nonError))
      ⟨none, true, ⟨2, "token1234abc", some "u", none, ⟨1, "sync", none⟩⟩⟩
      emptySt).1 =
      response "-# _Working on it..._"
        (whisperValue none || ("sync" == "sync")) (("sync" : String) == "spell") ∧
    (home (constEnv .notOk (.ok ⟨none, []⟩) (.error .nonError))
      ⟨none, true, ⟨2, "token1234abc", some "u", none, ⟨1, "sync", none⟩⟩⟩
      emptySt).1.ackFlags.testBit 6 =
      (whisperValue none || ("sync" == "sync")) ∧
    (home (constEnv .notOk (.ok ⟨none, []⟩) (.error .nonError))
      ⟨none, true, ⟨2, "token1234abc", some "u", none, ⟨1, "sync", none⟩⟩⟩
      emptySt).1.ackFlags.testBit 15 = (("sync" : String) == "spell") :=
  C9_ack_flags _ _ emptySt "u" rfl rfl rfl rfl rfl rfl

theorem not_is4xx_pong : ¬ is4xx .pong := by
  intro h
  have h1 := h.1
  simp [HttpResponse.status] at h1

theorem not_is4xx_ack (c : String) (f : Nat) : ¬ is4xx (.ack c f) := by
  intro h
  have h1 := h.1
  simp [HttpResponse.status] at h1

/-- Counterexample for C2 as stated: a command request whose whisper
option carries the wrong type tag is answered 400 "Invalid options", yet
the detached command handler was started before that check — the trace
already records the follow-up PATCH, a side effect. -/
theorem C2_counterexample :
    is4xx (home (constEnv .notOk (.ok ⟨none, []⟩) (.error .nonError))
      ⟨none, true, ⟨2, "token1234abc", some "u", none,
        ⟨1, "roll", some [⟨"whisper", 3, .str "x"⟩]⟩⟩⟩ emptySt).1 ∧
    (home (constEnv .notOk (.ok ⟨none, []⟩) (.error .nonError))
      ⟨none, true, ⟨2, "token1234abc", some "u", none,
        ⟨1, "roll", some [⟨"whisper", 3, .str "x"⟩]⟩⟩⟩ emptySt).2.trace ≠
      emptySt.trace :=
  ⟨by decide, by decide⟩

/-- Claim C2 (amended): every HTTP 4xx answer produced before the command
dispatch — sift validation failure, invalid signature, missing user,
wrong command subtype, unknown interaction type — leaves the state (cache
and effect trace) untouched; the only 4xx not covered is the whisper
option-type rejection "Invalid options", which is issued after the
detached handler has been started. -/
theorem C2_four_xx_no_side_effects_before_dispatch (env : Env)
    (req : HttpRequest) (st : St) (h : is4xx (home env req st).1) :
    (home env req st).2 = st ∨
    (home env req st).1 = .reject "Invalid options" 400 := by
  unfold home at h ⊢
  cases hsift : req.siftError with
  | some e => left; rfl
  | none =>
    rw [hsift] at h
    by_cases hs : !req.validSignature
    · simp only [if_pos hs] at h ⊢
      left; trivial
    · simp only [if_neg hs] at h ⊢
      by_cases h1 : req.interaction.type = 1
      · simp only [if_pos h1] at h ⊢
        exact absurd h not_is4xx_pong
      · simp only [if_neg h1] at h ⊢
        by_cases h2 : req.interaction.type = 2
        · simp only [if_pos h2] at h ⊢
          cases hu : userIdOf req.interaction with
          | none =>
            rw [hu] at h
            left; trivial
          | some uid =>
            rw [hu] at h
            by_cases h3 : req.interaction.data.type ≠ 1
            · simp only [if_pos h3] at h ⊢
              left; trivial
            · simp only [if_neg h3] at h ⊢
              by_cases h4 : whisperBad req.interaction.data.options
              · simp only [if_pos h4] at h ⊢
                right; trivial
              · simp only [if_neg h4] at h ⊢
                exact absurd h (not_is4xx_ack _ _)
        · simp only [if_neg h2] at h ⊢
          left; trivial

/-- Witness for the amended C2 at a concrete input: a request rejected by
sift validation (missing signature headers) leaves the state unchanged. -/
theorem C2_four_xx_no_side_effects_before_dispatch_witness :
    (home (constEnv .notOk (.ok ⟨none, []⟩) (.error .nonError))
      ⟨some ("Invalid headers", 400), true,
        ⟨2, "token1234abc", some "u", none, ⟨1, "roll", none⟩⟩⟩
      emptySt).2 = emptySt ∨
    (home (constEnv .notOk (.ok ⟨none, []⟩) (.error .nonError))
      ⟨some ("Invalid headers", 400), true,
        ⟨2, "token1234abc", some "u", none, ⟨1, "roll", none⟩⟩⟩
      emptySt).1 = .reject "Invalid options" 400 :=
  C2_four_xx_no_side_effects_before_dispatch _ _ emptySt (by decide)
